import Mathlib

/- Verification development for the Anka repository.
   Part A embeds the VS Code extension glue (src/vscode-anka/src/extension.ts):
   command construction for the run/check subcommands, input-path resolution,
   and the pure result-processing callbacks of runAnkaFile and checkAnkaFile.
   Part B models the language execution engine, whose implementation is not
   part of the available sources; its definitions are modelled from the spec. -/

namespace Anka

/-! ### Part A: VS Code extension (src/vscode-anka/src/extension.ts) -/

/-- Diagnostic severity as exposed by the editor API (extension.ts uses
vscode.DiagnosticSeverity.Error; the spec diagnostics interface allows
error and warning). -/
inductive VsSeverity where
  | error
  | warning
deriving DecidableEq, Repr

/-- One element of the `errors` array in the JSON printed by the checker
subprocess, as read by checkAnkaFile (fields err.line, err.column,
err.message); `line`/`column` are `none` when the field is absent.
The severity field carries the entry severity of the spec diagnostics
interface. -/
structure CheckEntry where
  severity : VsSeverity
  line : Option Int
  column : Option Int
  message : String
deriving DecidableEq, Repr

/-- The parsed JSON result of the check subprocess: either status ok, or a
non-ok status with an `errors` array (an absent array behaves as empty). -/
inductive CheckResultJson where
  | ok
  | errors (entries : List CheckEntry)
deriving DecidableEq, Repr

/-- The stdout of the check subprocess as seen by the callback in
checkAnkaFile: empty (falsy, the `if (stdout)` guard fails), text that
JSON.parse rejects, or parsed JSON. -/
inductive ExecStdout where
  | empty
  | unparseable
  | parsed (r : CheckResultJson)
deriving DecidableEq, Repr

/-- A produced editor diagnostic: 0-based line/column of the range start,
message and severity (extension.ts lines 362-369 and 375-380, 388-393). -/
structure VsDiagnostic where
  line : Int
  column : Int
  message : String
  severity : VsSeverity
deriving DecidableEq, Repr

/-- JavaScript `x || 1` on an optional integer field: absent or zero
(falsy) yields 1, any other value passes through (extension.ts lines
360-361, `err.line || 1`). -/
def jsOrOne : Option Int → Int
  | none => 1
  | some n => if n = 0 then 1 else n

/-- The diagnostic built from one checker error entry (extension.ts lines
360-368): line and column are `Math.max(0, (err.line || 1) - 1)` and the
severity is always DiagnosticSeverity.Error. -/
def mkDiag (e : CheckEntry) : VsDiagnostic :=
  { line := max 0 (jsOrOne e.line - 1)
    column := max 0 (jsOrOne e.column - 1)
    message := e.message
    severity := .error }

/-- The outcome of one checkAnkaFile callback invocation: the final
diagnostics list passed to diagnosticCollection.set, and the information
message shown, when any. -/
structure CheckOutcome where
  diagnostics : List VsDiagnostic
  infoMessage : Option String
deriving DecidableEq, Repr

/-- The pure content of the cp.exec callback of checkAnkaFile
(extension.ts lines 350-397): process stdout when truthy (status ok shows
an information message; a non-ok status with a nonempty errors array maps
every entry through mkDiag; unparseable stdout falls back to a stderr
diagnostic at 0,0 when stderr is nonempty), then when the subprocess
reported an error and no diagnostic was collected, push a fallback
diagnostic at 0,0 with stderr or a fixed text. -/
def checkCallback (stdout : ExecStdout) (execErr : Option Int) (stderr : String) :
    CheckOutcome :=
  let fromStdout : List VsDiagnostic × Option String :=
    match stdout with
    | .empty => ([], none)
    | .parsed .ok => ([], some "Anka: No syntax errors")
    | .parsed (.errors es) =>
        (if es.length > 0 then es.map mkDiag else [], none)
    | .unparseable =>
        (if stderr ≠ "" then
          [{ line := 0, column := 0, message := stderr, severity := .error }]
         else [], none)
  let diags :=
    match execErr with
    | none => fromStdout.1
    | some _ =>
        if fromStdout.1.length = 0 then
          let msg := if stderr ≠ "" then stderr else "Unknown error occurred"
          fromStdout.1 ++ [{ line := 0, column := 0, message := msg, severity := .error }]
        else fromStdout.1
  { diagnostics := diags, infoMessage := fromStdout.2 }

/-- The diagnostics collection keyed by document URI;
diagnosticCollection.set replaces the entry for one URI. -/
def setCollection (coll : String → List VsDiagnostic) (uri : String)
    (ds : List VsDiagnostic) : String → List VsDiagnostic :=
  fun u => if u = uri then ds else coll u

/-- POSIX absolute-path test, Node path.isAbsolute: the path begins with a
separator. -/
def isAbsolutePath (p : String) : Bool :=
  match p.toList with
  | '/' :: _ => true
  | _ => false

/-- POSIX path.dirname: drop trailing separators, drop the final segment,
drop its separators; an empty remainder is the root for absolute paths and
the dot directory otherwise. -/
def posixDirname (p : String) : String :=
  let cs := p.toList.reverse
  let noTrail := cs.dropWhile (· = '/')
  let noBase := noTrail.dropWhile (· ≠ '/')
  let noSep := noBase.dropWhile (· = '/')
  if noSep = [] then (if isAbsolutePath p then "/" else ".")
  else String.mk noSep.reverse

/-- Segment normalization of POSIX path.normalize: empty and dot segments
vanish, a dot-dot segment pops the previous real segment, accumulates when
the path is relative and vanishes at the root of an absolute path. -/
def normSegs (isAbs : Bool) : List String → List String → List String
  | acc, [] => acc.reverse
  | acc, seg :: rest =>
    if seg = "" ∨ seg = "." then normSegs isAbs acc rest
    else if seg = ".." then
      match acc with
      | [] => if isAbs then normSegs isAbs [] rest else normSegs isAbs [".."] rest
      | top :: accT =>
          if top = ".." then normSegs isAbs (seg :: acc) rest
          else normSegs isAbs accT rest
    else normSegs isAbs (seg :: acc) rest

/-- Split a character list at separators, the semantics of splitting a
string on the separator character. -/
def splitSlashAux (cur : List Char) : List Char → List String
  | [] => [String.mk cur.reverse]
  | ch :: rest =>
      if ch = '/' then String.mk cur.reverse :: splitSlashAux [] rest
      else splitSlashAux (ch :: cur) rest

/-- The segments of a path, split on the separator. -/
def splitSlash (p : String) : List String :=
  splitSlashAux [] p.toList

/-- Join segments with the separator. -/
def joinSegs : List String → String
  | [] => ""
  | [seg] => seg
  | seg :: rest => seg ++ "/" ++ joinSegs rest

/-- POSIX path.join of two parts: concatenate the nonempty parts with a
separator and normalize; an empty normalized result is the root for
absolute inputs and the dot directory otherwise. -/
def posixJoin (a b : String) : String :=
  let joined := if a = "" then b else if b = "" then a else a ++ "/" ++ b
  let isAbs := isAbsolutePath joined
  let segs := normSegs isAbs [] (splitSlash joined)
  if segs = [] then (if isAbs then "/" else ".")
  else (if isAbs then "/" else "") ++ joinSegs segs

/-- Input-path resolution of runAnkaFile (extension.ts lines 314-318): an
absolute input file passes through unchanged, a relative one is joined to
the directory containing the .anka file. -/
def resolveInputPath (filePath inputFile : String) : String :=
  if isAbsolutePath inputFile then inputFile
  else posixJoin (posixDirname filePath) inputFile

/-- The subcommand of the anka module named on a built command line. -/
inductive AnkaSubcommand where
  | check
  | run
  | parse
deriving DecidableEq, Repr

/-- A subprocess invocation built by the extension: the subcommand it
dispatches to, and the full command-line string. -/
structure AnkaInvocation where
  sub : AnkaSubcommand
  commandLine : String
deriving DecidableEq, Repr

/-- The command built by runAnkaFile (extension.ts lines 312-322): with an
input file, the run subcommand on the pipeline file and the resolved input
path; without one, the parse subcommand on the pipeline file alone. -/
def mkRunInvocation (pythonPath filePath : String) (inputFile : Option String) :
    AnkaInvocation :=
  match inputFile with
  | some f =>
      { sub := .run
        commandLine := "\"" ++ pythonPath ++ "\" -m anka run \"" ++ filePath ++
          "\" \"" ++ resolveInputPath filePath f ++ "\" --json" }
  | none =>
      { sub := .parse
        commandLine := "\"" ++ pythonPath ++ "\" -m anka parse \"" ++ filePath ++ "\"" }

/-- The command built by checkAnkaFile (extension.ts line 348): always the
check subcommand with the json flag. -/
def mkCheckInvocation (pythonPath filePath : String) : AnkaInvocation :=
  { sub := .check
    commandLine := "\"" ++ pythonPath ++ "\" -m anka check \"" ++ filePath ++ "\" --json" }

/-- The stdout of the run subprocess as seen by the callback of
runAnkaFile: empty (falsy), JSON that parses (shown pretty-printed), or
text that JSON.parse rejects (shown raw). -/
inductive RunStdout where
  | empty
  | jsonOk (pretty : String)
  | notJson (raw : String)
deriving DecidableEq, Repr

/-- The lines appended to the output channel by the cp.exec callback of
runAnkaFile (extension.ts lines 326-342): the stdout rendering when stdout
is truthy, then an Error line when stderr is truthy, then an exit-code line
when the subprocess reported an error. -/
def runCallbackLines (stdout : RunStdout) (stderr : String) (exitCode : Option Int) :
    List String :=
  (match stdout with
   | .empty => []
   | .jsonOk pretty => [pretty]
   | .notJson raw => [raw]) ++
  (if stderr = "" then [] else ["Error: " ++ stderr]) ++
  (match exitCode with
   | none => []
   | some c => ["Exit code: " ++ toString c])

/-! ### Part B: the language execution engine, modelled from the spec
(the engine implementation is not among the available sources; only its
documentation, prompts and the editor glue are). -/

/-- Modelled from the spec: the tagged-variant runtime Value of the value
model (the INT, DECIMAL, STRING, BOOL and NULL variants relevant to the
claims; the engine source is not under the available sources). DECIMAL is
exact rational arithmetic. -/
inductive Value where
  | int (n : Int)
  | decimal (q : ℚ)
  | str (s : String)
  | bool (b : Bool)
  | null
deriving DecidableEq, Repr

/-- Modelled from the spec: the closed set of error categories of the
error-handling design, with the Fatal loop and time limit kinds. -/
inductive ErrKind where
  | typeMismatch
  | divisionByZero
  | unknownIdentifier
  | indexOutOfRange
  | assertionFailed
  | ioFailure
  | httpFailure
  | schemaViolation
  | fatalLoopLimit
  | fatalTimeLimit
deriving DecidableEq, Repr

/-- Fatal error kinds are the resource-limit ones; all remaining kinds are
the Runtime and IO categories, recoverable inside TRY/ON_ERROR. -/
def ErrKind.isFatal : ErrKind → Bool
  | .fatalLoopLimit => true
  | .fatalTimeLimit => true
  | _ => false

/-- An evaluation error: kind plus message. -/
abbrev EvalErr := ErrKind × String

/-- A Row maps column names to values, in schema order. -/
abbrev Row := List (String × Value)

/-- A Table is an ordered sequence of rows. -/
abbrev Table := List Row

/-- The variable scope of a run, lexical lookup front to back. -/
abbrev Scope := List (String × Value)

/-- Modelled from the spec: arithmetic binary operators of the expression
evaluator. -/
inductive BinOp where
  | add
  | sub
  | mul
  | div
deriving DecidableEq, Repr

/-- Modelled from the spec: comparison operators, equality and ordering. -/
inductive CmpOp where
  | eq
  | ne
  | lt
  | le
  | gt
  | ge
deriving DecidableEq, Repr

/-- Modelled from the spec: the expression AST fragment the claims need:
literals, column and variable lookup, arithmetic, comparison and the
short-circuit logical connectives. -/
inductive Expr where
  | lit (v : Value)
  | col (name : String)
  | var (name : String)
  | bin (op : BinOp) (a b : Expr)
  | cmp (op : CmpOp) (a b : Expr)
  | logAnd (a b : Expr)
  | logOr (a b : Expr)
  | logNot (a : Expr)
deriving Repr

/-- Modelled from the spec: arithmetic with numeric promotion (INT op
DECIMAL is DECIMAL), null propagation, DivisionByZero on a zero divisor
and TypeMismatch on non-numeric operands. -/
def arith (op : BinOp) (a b : Value) : Except EvalErr Value :=
  match a, b with
  | .null, _ => .ok .null
  | _, .null => .ok .null
  | .int m, .int n =>
      match op with
      | .add => .ok (.int (m + n))
      | .sub => .ok (.int (m - n))
      | .mul => .ok (.int (m * n))
      | .div =>
          if n = 0 then .error (.divisionByZero, "division by zero")
          else .ok (.int (m / n))
  | .int m, .decimal q => arithDec op (m : ℚ) q
  | .decimal p, .int n => arithDec op p (n : ℚ)
  | .decimal p, .decimal q => arithDec op p q
  | _, _ => .error (.typeMismatch, "arithmetic requires numeric operands")
where
  /-- Decimal-promoted arithmetic. -/
  arithDec (op : BinOp) (p q : ℚ) : Except EvalErr Value :=
    match op with
    | .add => .ok (.decimal (p + q))
    | .sub => .ok (.decimal (p - q))
    | .mul => .ok (.decimal (p * q))
    | .div =>
        if q = 0 then .error (.divisionByZero, "division by zero")
        else .ok (.decimal (p / q))

/-- Modelled from the spec: comparison. Equality is structural over
comparable types, numeric operands compare under promotion, a NULL operand
never errors (NULL equals only NULL); a cross-type comparison of non-null
operands is TypeMismatch. Ordering follows three-valued logic: with a NULL
operand it evaluates to BOOL false, never an error; otherwise numeric and
string orderings apply and anything else is TypeMismatch. -/
def evalCmp (op : CmpOp) (a b : Value) : Except EvalErr Value :=
  match op with
  | .eq | .ne =>
    let core : Except EvalErr Bool :=
      match a, b with
      | .null, x => .ok (x = .null)
      | x, .null => .ok (x = .null)
      | .int m, .int n => .ok (m = n)
      | .int m, .decimal q => .ok ((m : ℚ) = q)
      | .decimal p, .int n => .ok (p = (n : ℚ))
      | .decimal p, .decimal q => .ok (p = q)
      | .str s, .str t => .ok (s = t)
      | .bool x, .bool y => .ok (x = y)
      | _, _ => .error (.typeMismatch, "cannot compare values of different types")
    core.map (fun r => .bool (if op = .ne then !r else r))
  | .lt | .le | .gt | .ge =>
    match a, b with
    | .null, _ => .ok (.bool false)
    | _, .null => .ok (.bool false)
    | .int m, .int n => .ok (.bool (ordApply op (m : ℚ) (n : ℚ)))
    | .int m, .decimal q => .ok (.bool (ordApply op (m : ℚ) q))
    | .decimal p, .int n => .ok (.bool (ordApply op p (n : ℚ)))
    | .decimal p, .decimal q => .ok (.bool (ordApply op p q))
    | .str s, .str t => .ok (.bool (ordApplyStr op s t))
    | _, _ => .error (.typeMismatch, "cannot order these operands")
where
  /-- Rational ordering per operator. -/
  ordApply (op : CmpOp) (p q : ℚ) : Bool :=
    match op with
    | .lt => p < q
    | .le => p ≤ q
    | .gt => q < p
    | .ge => q ≤ p
    | _ => false
  /-- Lexicographic string ordering per operator. -/
  ordApplyStr (op : CmpOp) (s t : String) : Bool :=
    match op with
    | .lt => s < t
    | .le => s < t ∨ s = t
    | .gt => t < s
    | .ge => t < s ∨ s = t
    | _ => false

/-- Column lookup in a row. -/
def rowLookup (r : Row) (c : String) : Option Value :=
  (r.find? (fun p => p.1 = c)).map (·.2)

/-- Modelled from the spec: the expression evaluator against a row (column
lookup) and the enclosing scope (variable lookup); unknown names are
UnknownIdentifier, the logical connectives short-circuit and require BOOL
operands. -/
def evalExpr (r : Row) (s : Scope) : Expr → Except EvalErr Value
  | .lit v => .ok v
  | .col c =>
      match rowLookup r c with
      | some v => .ok v
      | none => .error (.unknownIdentifier, "unknown column " ++ c)
  | .var x =>
      match rowLookup s x with
      | some v => .ok v
      | none => .error (.unknownIdentifier, "unknown identifier " ++ x)
  | .bin op a b =>
      match evalExpr r s a with
      | .error e => .error e
      | .ok va =>
          match evalExpr r s b with
          | .error e => .error e
          | .ok vb => arith op va vb
  | .cmp op a b =>
      match evalExpr r s a with
      | .error e => .error e
      | .ok va =>
          match evalExpr r s b with
          | .error e => .error e
          | .ok vb => evalCmp op va vb
  | .logAnd a b =>
      match evalExpr r s a with
      | .error e => .error e
      | .ok (.bool false) => .ok (.bool false)
      | .ok (.bool true) =>
          match evalExpr r s b with
          | .error e => .error e
          | .ok (.bool y) => .ok (.bool y)
          | .ok _ => .error (.typeMismatch, "AND requires BOOL operands")
      | .ok _ => .error (.typeMismatch, "AND requires BOOL operands")
  | .logOr a b =>
      match evalExpr r s a with
      | .error e => .error e
      | .ok (.bool true) => .ok (.bool true)
      | .ok (.bool false) =>
          match evalExpr r s b with
          | .error e => .error e
          | .ok (.bool y) => .ok (.bool y)
          | .ok _ => .error (.typeMismatch, "OR requires BOOL operands")
      | .ok _ => .error (.typeMismatch, "OR requires BOOL operands")
  | .logNot a =>
      match evalExpr r s a with
      | .error e => .error e
      | .ok (.bool y) => .ok (.bool !y)
      | .ok _ => .error (.typeMismatch, "NOT requires a BOOL operand")

/-- Modelled from the spec: FILTER keeps the rows on which the predicate
evaluates to BOOL true, preserving input row order; a predicate evaluation
error aborts the operator. -/
def runFILTER (s : Scope) (pred : Expr) : Table → Except EvalErr Table
  | [] => .ok []
  | r :: rs =>
    match evalExpr r s pred with
    | .error e => .error e
    | .ok v =>
        match runFILTER s pred rs with
        | .error e => .error e
        | .ok rest => if v = Value.bool true then .ok (r :: rest) else .ok rest

/-- Modelled from the spec: the aggregate functions of AGGREGATE the
claims mention. -/
inductive AggFn where
  | count
  | sum
  | avg
deriving DecidableEq, Repr

/-- One COMPUTE item: function, optional argument column (COUNT takes
none) and the output column name bound by AS. -/
structure AggSpec where
  fn : AggFn
  arg : Option String
  outName : String
deriving DecidableEq, Repr

/-- The values of one column across rows; an absent column reads as NULL. -/
def colValues (c : String) (rows : Table) : List Value :=
  rows.map (fun r => (rowLookup r c).getD .null)

/-- The rational content of a numeric value. -/
def ratOf : Value → Option ℚ
  | .int n => some (n : ℚ)
  | .decimal q => some q
  | _ => none

/-- Modelled from the spec: SUM over the non-null contributing values,
added with numeric promotion; with no non-null contributor (an empty
group) the result is NULL, not an error; a non-numeric contributor is
TypeMismatch. -/
def sumAgg (vs : List Value) : Except EvalErr Value :=
  let nn := vs.filter (fun v => v ≠ .null)
  match nn with
  | [] => .ok .null
  | v :: rest => rest.foldlM (fun acc w => arith .add acc w) v

/-- Modelled from the spec: AVG divides the sum by the number of non-null
contributing rows, as a DECIMAL; with no non-null contributor the result
is NULL, not an error. -/
def avgAgg (vs : List Value) : Except EvalErr Value :=
  let nn := vs.filter (fun v => v ≠ .null)
  if nn.length = 0 then .ok .null
  else
    match sumAgg vs with
    | .error e => .error e
    | .ok sv =>
        match ratOf sv with
        | some q => .ok (.decimal (q / (nn.length : ℚ)))
        | none => .error (.typeMismatch, "AVG requires numeric values")

/-- Modelled from the spec: apply one COMPUTE item over the rows of a
group; COUNT of the rows yields their number, 0 on an empty table. -/
def applyAgg (rows : Table) (a : AggSpec) : Except EvalErr Value :=
  match a.fn, a.arg with
  | .count, _ => .ok (.int rows.length)
  | .sum, some c => sumAgg (colValues c rows)
  | .avg, some c => avgAgg (colValues c rows)
  | _, none => .error (.typeMismatch, "aggregate function requires a column")

/-- The output row of the COMPUTE items over one group. -/
def computeRow (rows : Table) (specs : List AggSpec) : Except EvalErr Row :=
  specs.mapM (fun a => (applyAgg rows a).map (fun v => (a.outName, v)))

/-- The grouping key of a row: the tuple of its values at the GROUP_BY
columns. -/
def groupKey (cols : List String) (r : Row) : List Value :=
  cols.map (fun c => (rowLookup r c).getD .null)

/-- Append a row to its group, keeping the first-seen group-key order. -/
def insertGrouped (acc : List (List Value × Table)) (k : List Value) (r : Row) :
    List (List Value × Table) :=
  match acc with
  | [] => [(k, [r])]
  | (k2, rs) :: rest =>
      if k2 = k then (k2, rs ++ [r]) :: rest
      else (k2, rs) :: insertGrouped rest k r

/-- Group the rows by equality of the GROUP_BY tuple, first-seen order. -/
def groupRows (cols : List String) (T : Table) : List (List Value × Table) :=
  T.foldl (fun acc r => insertGrouped acc (groupKey cols r) r) []

/-- Modelled from the spec: AGGREGATE with GROUP_BY columns and COMPUTE
items. Without GROUP_BY columns the whole input is one group and the
output is a single row, on an empty input table too; with GROUP_BY columns
each first-seen group emits its key columns followed by the computed
values. -/
def runAGGREGATE (T : Table) (cols : List String) (specs : List AggSpec) :
    Except EvalErr Table :=
  match cols with
  | [] => (computeRow T specs).map (fun r => [r])
  | _ =>
      (groupRows cols T).mapM (fun g =>
        (computeRow g.2 specs).map (fun r => (cols.zip g.1) ++ r))

/-- Modelled from the spec: the control signal threaded through statement
execution. -/
inductive Signal where
  | normal
  | brk
  | cont
  | ret (v : Value)
  | err (k : ErrKind) (msg : String)
deriving DecidableEq, Repr

/-- Modelled from the spec: the statement fragment of the control-flow
interpreter the claims need: SET, sequencing, IF/ELSE, WHILE, BREAK,
CONTINUE and TRY/ON_ERROR. -/
inductive Stmt where
  | skip
  | seq (a b : Stmt)
  | set (x : String) (e : Expr)
  | ifElse (c : Expr) (thn els : Stmt)
  | whileLoop (c : Expr) (body : Stmt)
  | brk
  | cont
  | tryOnError (body handler : Stmt)
deriving Repr

/-- Modelled from the spec: the WHILE loop under its mandatory iteration
cap. The condition is re-evaluated before each iteration; when it is true
but the remaining iteration budget is exhausted the run aborts with the
Fatal loop-limit error; BREAK is consumed by the loop, CONTINUE starts the
next iteration, other signals propagate. -/
def whileGo (condE : Scope → Except EvalErr Value) (bodyE : Scope → Scope × Signal) :
    Nat → Scope → Scope × Signal
  | 0, s =>
      match condE s with
      | .error e => (s, .err e.1 e.2)
      | .ok (.bool false) => (s, .normal)
      | .ok (.bool true) => (s, .err .fatalLoopLimit "WHILE iteration limit exceeded")
      | .ok _ => (s, .err .typeMismatch "WHILE condition must be BOOL")
  | fuel + 1, s =>
      match condE s with
      | .error e => (s, .err e.1 e.2)
      | .ok (.bool false) => (s, .normal)
      | .ok (.bool true) =>
          match bodyE s with
          | (s2, .normal) => whileGo condE bodyE fuel s2
          | (s2, .cont) => whileGo condE bodyE fuel s2
          | (s2, .brk) => (s2, .normal)
          | (s2, sig) => (s2, sig)
      | .ok _ => (s, .err .typeMismatch "WHILE condition must be BOOL")

/-- Modelled from the spec: the statement interpreter with an explicit
scope and control signal; `cap` is the configured WHILE iteration cap.
TRY/ON_ERROR clears a non-Fatal error signal from its body and executes
the handler instead; a Fatal error propagates uncaught; every other signal
of the body passes through. -/
def execStmt (cap : Nat) : Stmt → Scope → Scope × Signal
  | .skip, s => (s, .normal)
  | .seq a b, s =>
      match execStmt cap a s with
      | (s2, .normal) => execStmt cap b s2
      | (s2, sig) => (s2, sig)
  | .set x e, s =>
      match evalExpr [] s e with
      | .ok v => ((x, v) :: s, .normal)
      | .error er => (s, .err er.1 er.2)
  | .ifElse c thn els, s =>
      match evalExpr [] s c with
      | .ok (.bool true) => execStmt cap thn s
      | .ok (.bool false) => execStmt cap els s
      | .ok _ => (s, .err .typeMismatch "IF condition must be BOOL")
      | .error er => (s, .err er.1 er.2)
  | .whileLoop c body, s =>
      whileGo (fun sc => evalExpr [] sc c) (fun sc => execStmt cap body sc) cap s
  | .brk, s => (s, .brk)
  | .cont, s => (s, .cont)
  | .tryOnError body handler, s =>
      match execStmt cap body s with
      | (s2, .err k m) =>
          if k.isFatal then (s2, .err k m) else execStmt cap handler s2
      | (s2, sig) => (s2, sig)

/-- Decidable equality for Except results, used to evaluate concrete runs
of the fallible operations. -/
instance exceptDecEq {ε α : Type} [DecidableEq ε] [DecidableEq α] :
    DecidableEq (Except ε α) := fun
  | .ok a, .ok b =>
      match decEq a b with
      | .isTrue h => .isTrue (by rw [h])
      | .isFalse h => .isFalse (fun he => h (Except.ok.inj he))
  | .error a, .error b =>
      match decEq a b with
      | .isTrue h => .isTrue (by rw [h])
      | .isFalse h => .isFalse (fun he => h (Except.error.inj he))
  | .ok _, .error _ => .isFalse (fun he => Except.noConfusion he)
  | .error _, .ok _ => .isFalse (fun he => Except.noConfusion he)

/-! ### Theorems for the claims about the extension glue -/

/-- Claim C1, counterexample: checkAnkaFile does not carry the severity of
a checker entry; an entry whose severity is warning still produces an
editor diagnostic with severity Error (extension.ts line 366 hard-codes
DiagnosticSeverity.Error). -/
theorem C1_severity_dropped_counterexample :
    (checkCallback (.parsed (.errors [⟨.warning, some 2, some 3, "w"⟩])) none "").diagnostics
      = [{ line := 1, column := 2, message := "w", severity := .error }] ∧
    (⟨.warning, some 2, some 3, "w"⟩ : CheckEntry).severity = .warning ∧
    VsSeverity.error ≠ VsSeverity.warning := by
  refine ⟨rfl, rfl, by decide⟩

/-- Claim C1 (amended): for every nonempty checker error list, the
diagnostics produced by checkAnkaFile are exactly the entries mapped in
order through mkDiag; each produced diagnostic carries the entry message,
always has severity Error regardless of the entry severity, its position
is never negative, and an entry with a 1-based line or column n ≥ 1 is
placed at n - 1. -/
theorem C1_diagnostic_mapping (es : List CheckEntry) (hne : es ≠ [])
    (execErr : Option Int) (stderr : String) :
    (checkCallback (.parsed (.errors es)) execErr stderr).diagnostics = es.map mkDiag ∧
    ∀ e : CheckEntry,
      (mkDiag e).message = e.message ∧
      (mkDiag e).severity = .error ∧
      0 ≤ (mkDiag e).line ∧ 0 ≤ (mkDiag e).column ∧
      (∀ n : Int, e.line = some n → 1 ≤ n → (mkDiag e).line = n - 1) ∧
      (∀ n : Int, e.column = some n → 1 ≤ n → (mkDiag e).column = n - 1) := by
  constructor
  · have hlen : 0 < es.length := List.length_pos.mpr hne
    cases execErr with
    | none => simp [checkCallback, hlen]
    | some c =>
        have hne2 : (es.map mkDiag).length ≠ 0 := by
          simpa using Nat.pos_iff_ne_zero.mp hlen
        simp [checkCallback, hlen, hne2, hne]
  · intro e
    refine ⟨rfl, rfl, le_max_left 0 _, le_max_left 0 _, ?_, ?_⟩
    · intro n hn h1
      show max 0 (jsOrOne e.line - 1) = n - 1
      rw [hn]
      show max 0 ((if n = 0 then 1 else n) - 1) = n - 1
      rw [if_neg (by omega)]
      exact max_eq_right (by omega)
    · intro n hn h1
      show max 0 (jsOrOne e.column - 1) = n - 1
      rw [hn]
      show max 0 ((if n = 0 then 1 else n) - 1) = n - 1
      rw [if_neg (by omega)]
      exact max_eq_right (by omega)

/-- Claim C1, witness: a single error entry at line 5, column 7 yields the
single diagnostic mkDiag produces for it. -/
theorem C1_diagnostic_mapping_witness :
    (checkCallback (.parsed (.errors [⟨.error, some 5, some 7, "m"⟩])) none "").diagnostics
      = [mkDiag ⟨.error, some 5, some 7, "m"⟩] :=
  (C1_diagnostic_mapping [⟨.error, some 5, some 7, "m"⟩] (by decide) none "").1

/-- Claim C2, counterexample: a run invocation without an input file does
not execute the pipeline; runAnkaFile builds a parse subcommand, not a run
subcommand (extension.ts lines 320-322). -/
theorem C2_parse_on_missing_input :
    (mkRunInvocation "python" "/proj/pipe.anka" none).sub = .parse ∧
    (mkRunInvocation "python" "/proj/pipe.anka" none).sub ≠ .run := by
  refine ⟨rfl, by decide⟩

/-- Claim C2 (amended): runAnkaFile executes the pipeline via the run
subcommand exactly when an input file is supplied, and falls back to the
parse subcommand (no execution) otherwise; the output channel shows the
pretty-printed JSON stdout on success, and the stderr text plus exit code
when the subprocess fails. -/
theorem C2_run_dispatch (py fp f pretty stderr : String) (c : Int) :
    (mkRunInvocation py fp (some f)).sub = .run ∧
    (mkRunInvocation py fp none).sub = .parse ∧
    runCallbackLines (.jsonOk pretty) "" none = [pretty] ∧
    (stderr ≠ "" →
      runCallbackLines .empty stderr (some c)
        = ["Error: " ++ stderr, "Exit code: " ++ toString c]) := by
  refine ⟨rfl, rfl, by simp [runCallbackLines], fun h => by simp [runCallbackLines, h]⟩

/-- Claim C2, witness: a failing subprocess with stderr shows the error
line and the exit code. -/
theorem C2_run_dispatch_witness :
    runCallbackLines .empty "boom" (some 1)
      = ["Error: " ++ "boom", "Exit code: " ++ toString (1 : Int)] :=
  (C2_run_dispatch "python" "/proj/pipe.anka" "data.json" "out" "boom" 1).2.2.2 (by decide)

/-- Claim C3, counterexample: setting the diagnostics collection is not
the only user-visible effect of checkAnkaFile; on checker status ok it
also shows an information message (extension.ts line 357). -/
theorem C3_info_message_side_effect :
    (checkCallback (.parsed .ok) none "").infoMessage = some "Anka: No syntax errors" ∧
    (checkCallback (.parsed .ok) none "").infoMessage ≠ none := by
  refine ⟨rfl, by decide⟩

/-- Claim C3 (amended): checkAnkaFile always builds the check subcommand,
never the run subcommand, and beyond setting the diagnostics collection
its only other user-visible effect is the information message shown
exactly when the checker reports status ok. -/
theorem C3_check_frame (py fp : String) (stdout : ExecStdout) (execErr : Option Int)
    (stderr : String) :
    (mkCheckInvocation py fp).sub = .check ∧
    (mkCheckInvocation py fp).sub ≠ .run ∧
    (checkCallback stdout execErr stderr).infoMessage
      = (if stdout = ExecStdout.parsed .ok then some "Anka: No syntax errors" else none) := by
  refine ⟨rfl, by simp [mkCheckInvocation], ?_⟩
  cases stdout with
  | empty => simp [checkCallback]
  | unparseable => simp [checkCallback]
  | parsed r =>
      cases r with
      | ok => simp [checkCallback]
      | errors es => simp [checkCallback]

/-- Claim C9, counterexample: when the checker stdout is not parseable as
JSON while stderr is empty and the subprocess exits cleanly, checkAnkaFile
produces no fallback diagnostic at all and silently reports no problems. -/
theorem C9_unparseable_silent_counterexample :
    (checkCallback .unparseable none "").diagnostics = [] := rfl

/-- Claim C9 (amended): checkAnkaFile sets the diagnostics collection for
the document exactly once to the freshly computed list, so earlier
diagnostics never persist; the list is empty when the checker reports
status ok and the subprocess exits cleanly; on unparseable stdout a
fallback diagnostic at line 0, column 0 carrying stderr is produced when
stderr is nonempty, and a fixed fallback is produced when the subprocess
exits with an error while nothing else was collected; but unparseable
stdout with empty stderr and a clean exit yields no diagnostic. -/
theorem C9_diagnostics_lifecycle :
    (∀ stderr, (checkCallback (.parsed .ok) none stderr).diagnostics = []) ∧
    (∀ execErr stderr, stderr ≠ "" →
      (checkCallback .unparseable execErr stderr).diagnostics
        = [{ line := 0, column := 0, message := stderr, severity := .error }]) ∧
    (∀ c : Int, (checkCallback .unparseable (some c) "").diagnostics
        = [{ line := 0, column := 0, message := "Unknown error occurred", severity := .error }]) ∧
    (checkCallback .unparseable none "").diagnostics = [] ∧
    (∀ coll uri ds, setCollection coll uri ds uri = ds) := by
  refine ⟨fun stderr => rfl, ?_, fun c => rfl, rfl, fun coll uri ds => by simp [setCollection]⟩
  intro execErr stderr h
  cases execErr with
  | none => simp [checkCallback, h]
  | some c => simp [checkCallback, h]

/-- Claim C9, witness: unparseable stdout with a failing exit and nonempty
stderr yields exactly the stderr fallback diagnostic at 0, 0. -/
theorem C9_diagnostics_lifecycle_witness :
    (checkCallback .unparseable (some 2) "boom").diagnostics
      = [{ line := 0, column := 0, message := "boom", severity := .error }] :=
  C9_diagnostics_lifecycle.2.1 (some 2) "boom" (by decide)

/-- Claim C10: runAnkaFile passes an absolute input path through unchanged
and joins a relative one to the directory of the .anka file, never to the
process working directory; the resolved path is what the run command line
carries. -/
theorem C10_input_path_resolution :
    (∀ fp f, isAbsolutePath f = true → resolveInputPath fp f = f) ∧
    (∀ fp f, isAbsolutePath f = false →
      resolveInputPath fp f = posixJoin (posixDirname fp) f) ∧
    (∀ py fp f, (mkRunInvocation py fp (some f)).commandLine
        = "\"" ++ py ++ "\" -m anka run \"" ++ fp ++ "\" \"" ++
            resolveInputPath fp f ++ "\" --json") ∧
    resolveInputPath "/proj/pipe.anka" "data.json" = "/proj/data.json" ∧
    resolveInputPath "/proj/pipe.anka" "/abs/data.json" = "/abs/data.json" ∧
    posixDirname "/proj/pipe.anka" = "/proj" := by
  refine ⟨?_, ?_, fun py fp f => rfl, by decide, by decide, by decide⟩
  · intro fp f h; simp [resolveInputPath, h]
  · intro fp f h; simp [resolveInputPath, h]

/-- Claim C10, witness: an absolute input passes through, a relative input
joins the pipeline directory. -/
theorem C10_input_path_resolution_witness :
    resolveInputPath "/proj/pipe.anka" "/abs/data.json" = "/abs/data.json" ∧
    resolveInputPath "/proj/pipe.anka" "sub/in.json"
      = posixJoin (posixDirname "/proj/pipe.anka") "sub/in.json" :=
  ⟨C10_input_path_resolution.1 "/proj/pipe.anka" "/abs/data.json" (by decide),
   C10_input_path_resolution.2.1 "/proj/pipe.anka" "sub/in.json" (by decide)⟩

/-! ### Theorems for the claims about the execution engine -/

/-- The Boolean test that the predicate evaluates to BOOL true on a row. -/
def evalsTrue (s : Scope) (p : Expr) (r : Row) : Bool :=
  match evalExpr r s p with
  | .ok (.bool true) => true
  | _ => false

/-- The Boolean test agrees with the evaluation equation. -/
theorem evalsTrue_iff (s : Scope) (p : Expr) (r : Row) :
    evalsTrue s p r = true ↔ evalExpr r s p = .ok (.bool true) := by
  unfold evalsTrue
  cases hv : evalExpr r s p with
  | error e => simp
  | ok v =>
      cases v with
      | bool b => cases b <;> simp
      | int n => simp
      | decimal q => simp
      | str t => simp
      | null => simp

/-- The Boolean test is false when the predicate evaluates to anything but
BOOL true. -/
theorem evalsTrue_eq_false (s : Scope) (p : Expr) (r : Row) (v : Value)
    (hv : evalExpr r s p = .ok v) (hvb : v ≠ Value.bool true) :
    evalsTrue s p r = false := by
  unfold evalsTrue
  rw [hv]
  cases v with
  | bool b =>
      cases b with
      | true => exact absurd rfl hvb
      | false => rfl
  | int n => rfl
  | decimal q => rfl
  | str t => rfl
  | null => rfl

theorem runFILTER_eq_filter (s : Scope) (p : Expr) :
    ∀ T T' : Table, runFILTER s p T = .ok T' → T' = T.filter (evalsTrue s p) := by
  intro T
  induction T with
  | nil =>
      intro T' h
      rw [← Except.ok.inj h]
      rfl
  | cons r rs ih =>
      intro T' h
      cases hv : evalExpr r s p with
      | error e => simp [runFILTER, hv] at h
      | ok v =>
          cases hr : runFILTER s p rs with
          | error e => simp [runFILTER, hv, hr] at h
          | ok rest =>
              have hrest := ih rest hr
              by_cases hvb : v = Value.bool true
              · subst hvb
                simp [runFILTER, hv, hr] at h
                have hp : evalsTrue s p r = true := (evalsTrue_iff s p r).mpr hv
                rw [← h, List.filter_cons, hp, hrest]
                simp
              · simp [runFILTER, hv, hr, hvb] at h
                have hp : evalsTrue s p r = false := evalsTrue_eq_false s p r v hv hvb
                rw [← h, List.filter_cons, hp, hrest]
                simp

/-- Claim C4: every row of a successful FILTER output occurs in the input,
the output is exactly the rows on which the predicate evaluates to BOOL
true, and the output order is a subsequence of the input order. -/
theorem C4_filter_rows (s : Scope) (p : Expr) (T T' : Table)
    (h : runFILTER s p T = .ok T') :
    (∀ r ∈ T', r ∈ T) ∧
    T' = T.filter (evalsTrue s p) ∧
    (∀ r ∈ T', evalExpr r s p = .ok (.bool true)) ∧
    T'.Sublist T := by
  have hf := runFILTER_eq_filter s p T T' h
  refine ⟨?_, hf, ?_, ?_⟩
  · intro r hr
    rw [hf] at hr
    exact List.mem_of_mem_filter hr
  · intro r hr
    rw [hf] at hr
    exact (evalsTrue_iff s p r).mp (List.of_mem_filter hr)
  · rw [hf]
    exact List.filter_sublist T

/-- The sample orders table of the spec scenarios. -/
def sampleOrders : Table :=
  [[("id", .int 1), ("status", .str "active"), ("amount", .int 150)],
   [("id", .int 2), ("status", .str "closed"), ("amount", .int 300)]]

/-- The predicate of the first spec scenario: status equals the string
active. -/
def activePred : Expr :=
  .cmp .eq (.col "status") (.lit (.str "active"))

/-- Claim C4, witness: filtering the sample orders by status keeps exactly
the first row. -/
theorem C4_filter_rows_witness :
    (∀ r ∈ [[("id", Value.int 1), ("status", Value.str "active"), ("amount", Value.int 150)]],
      r ∈ sampleOrders) ∧
    [[("id", Value.int 1), ("status", Value.str "active"), ("amount", Value.int 150)]]
      = sampleOrders.filter (evalsTrue [] activePred) ∧
    (∀ r ∈ [[("id", Value.int 1), ("status", Value.str "active"), ("amount", Value.int 150)]],
      evalExpr r [] activePred = .ok (.bool true)) ∧
    List.Sublist
      [[("id", Value.int 1), ("status", Value.str "active"), ("amount", Value.int 150)]]
      sampleOrders :=
  C4_filter_rows [] activePred sampleOrders
    [[("id", .int 1), ("status", .str "active"), ("amount", .int 150)]] rfl

/-- Claim C5: an ordering comparison with a NULL operand evaluates to BOOL
false and never raises an error, whatever the other operand. -/
theorem C5_null_ordering_comparisons (v : Value) :
    evalCmp .lt .null v = .ok (.bool false) ∧ evalCmp .lt v .null = .ok (.bool false) ∧
    evalCmp .le .null v = .ok (.bool false) ∧ evalCmp .le v .null = .ok (.bool false) ∧
    evalCmp .gt .null v = .ok (.bool false) ∧ evalCmp .gt v .null = .ok (.bool false) ∧
    evalCmp .ge .null v = .ok (.bool false) ∧ evalCmp .ge v .null = .ok (.bool false) := by
  cases v <;> exact ⟨rfl, rfl, rfl, rfl, rfl, rfl, rfl, rfl⟩

/-- Claim C7: AGGREGATE with COMPUTE COUNT() on an empty input table
yields a single row with count 0 rather than an error, and SUM and AVG
over an empty group (no contributing rows, or only NULL contributions)
yield NULL rather than an error. -/
theorem C7_empty_aggregates :
    runAGGREGATE [] [] [⟨.count, none, "cnt"⟩] = .ok [[("cnt", Value.int 0)]] ∧
    (∀ c : String, sumAgg (colValues c []) = .ok Value.null) ∧
    (∀ c : String, avgAgg (colValues c []) = .ok Value.null) ∧
    sumAgg [] = .ok Value.null ∧
    avgAgg [] = .ok Value.null ∧
    sumAgg [Value.null, Value.null] = .ok Value.null ∧
    avgAgg [Value.null, Value.null] = .ok Value.null ∧
    (∀ c outCol : String,
      runAGGREGATE [] [] [⟨.sum, some c, outCol⟩] = .ok [[(outCol, Value.null)]]) ∧
    (∀ c outCol : String,
      runAGGREGATE [] [] [⟨.avg, some c, outCol⟩] = .ok [[(outCol, Value.null)]]) :=
  ⟨rfl, fun _ => rfl, fun _ => rfl, rfl, rfl, rfl, rfl, fun _ _ => rfl, fun _ _ => rfl⟩

/-- Claim C6: a Runtime-category (non-Fatal) error raised inside a TRY
block is caught by its ON_ERROR handler: the error signal is cleared, the
handler block executes in its place, and when the handler completes
normally execution continues with the statement after the TRY/END. -/
theorem C6_try_catches_runtime (cap : Nat) (body handler rest : Stmt) (s s2 : Scope)
    (k : ErrKind) (m : String)
    (hrun : execStmt cap body s = (s2, .err k m)) (hk : k.isFatal = false) :
    execStmt cap (.tryOnError body handler) s = execStmt cap handler s2 ∧
    ∀ s3, execStmt cap handler s2 = (s3, .normal) →
      execStmt cap (.seq (.tryOnError body handler) rest) s = execStmt cap rest s3 := by
  have htry : execStmt cap (.tryOnError body handler) s = execStmt cap handler s2 := by
    show (match execStmt cap body s with
      | (s2, .err k m) => if k.isFatal then (s2, .err k m) else execStmt cap handler s2
      | (s2, sig) => (s2, sig)) = execStmt cap handler s2
    rw [hrun]
    simp [hk]
  refine ⟨htry, ?_⟩
  intro s3 h3
  show (match execStmt cap (.tryOnError body handler) s with
    | (s4, .normal) => execStmt cap rest s4
    | (s4, sig) => (s4, sig)) = execStmt cap rest s3
  rw [htry, h3]

/-- The TRY body of the C6 witness: a division by zero. -/
def tryBody : Stmt := .set "x" (.bin .div (.lit (.int 1)) (.lit (.int 0)))

/-- The ON_ERROR handler of the C6 witness. -/
def tryHandler : Stmt := .set "y" (.lit (.int 2))

/-- The statement after the TRY/END of the C6 witness. -/
def afterTry : Stmt := .set "z" (.lit (.int 3))

/-- Claim C6, witness: a DivisionByZero inside TRY runs the handler and
execution continues after the TRY/END. -/
theorem C6_try_catches_runtime_witness :
    execStmt 4 (.tryOnError tryBody tryHandler) [] = execStmt 4 tryHandler [] ∧
    ∀ s3, execStmt 4 tryHandler [] = (s3, .normal) →
      execStmt 4 (.seq (.tryOnError tryBody tryHandler) afterTry) [] = execStmt 4 afterTry s3 :=
  C6_try_catches_runtime 4 tryBody tryHandler afterTry [] [] .divisionByZero
    "division by zero" rfl rfl

/-- A WHILE whose condition always evaluates to BOOL true and whose body
always completes normally exhausts any iteration budget and aborts with
the Fatal loop-limit error. -/
theorem whileGo_always_true_fatal (condE : Scope → Except EvalErr Value)
    (bodyE : Scope → Scope × Signal)
    (hc : ∀ sc, condE sc = .ok (.bool true))
    (hb : ∀ sc, (bodyE sc).2 = .normal) :
    ∀ fuel s, (whileGo condE bodyE fuel s).2
      = .err .fatalLoopLimit "WHILE iteration limit exceeded" := by
  intro fuel
  induction fuel with
  | zero =>
      intro s
      simp only [whileGo, hc s]
  | succ fuel ih =>
      intro s
      simp only [whileGo, hc s]
      cases hbe : bodyE s with
      | mk s2 sig =>
          have hsig := hb s
          rw [hbe] at hsig
          simp only at hsig
          subst hsig
          exact ih s2

/-- Claim C8: when its condition stays true and its body keeps completing
normally, a WHILE loop aborts with the Fatal loop-limit error once the
configured iteration cap is exhausted, and this Fatal error is not caught
by an enclosing TRY/ON_ERROR: any Fatal error signal of a TRY body
propagates past the handler. -/
theorem C8_while_guard_fatal_uncatchable (cap : Nat) (c : Expr) (body handler : Stmt)
    (s : Scope)
    (hc : ∀ sc : Scope, evalExpr [] sc c = .ok (.bool true))
    (hb : ∀ sc : Scope, (execStmt cap body sc).2 = .normal) :
    (execStmt cap (.whileLoop c body) s).2
      = .err .fatalLoopLimit "WHILE iteration limit exceeded" ∧
    (execStmt cap (.tryOnError (.whileLoop c body) handler) s).2
      = .err .fatalLoopLimit "WHILE iteration limit exceeded" ∧
    ∀ (b h2 : Stmt) (sc sc2 : Scope) (k : ErrKind) (m : String),
      execStmt cap b sc = (sc2, .err k m) → k.isFatal = true →
        execStmt cap (.tryOnError b h2) sc = (sc2, .err k m) := by
  have huncaught : ∀ (b h2 : Stmt) (sc sc2 : Scope) (k : ErrKind) (m : String),
      execStmt cap b sc = (sc2, .err k m) → k.isFatal = true →
        execStmt cap (.tryOnError b h2) sc = (sc2, .err k m) := by
    intro b h2 sc sc2 k m hrun hk
    show (match execStmt cap b sc with
      | (s2, .err k m) => if k.isFatal then (s2, .err k m) else execStmt cap h2 s2
      | (s2, sig) => (s2, sig)) = (sc2, .err k m)
    rw [hrun]
    simp [hk]
  have hwhile : (execStmt cap (.whileLoop c body) s).2
      = .err .fatalLoopLimit "WHILE iteration limit exceeded" := by
    show (whileGo (fun sc => evalExpr [] sc c) (fun sc => execStmt cap body sc) cap s).2
      = .err .fatalLoopLimit "WHILE iteration limit exceeded"
    exact whileGo_always_true_fatal _ _ hc hb cap s
  refine ⟨hwhile, ?_, huncaught⟩
  have hsplit : execStmt cap (.whileLoop c body) s
      = ((execStmt cap (.whileLoop c body) s).1,
         Signal.err .fatalLoopLimit "WHILE iteration limit exceeded") := by
    rw [← hwhile]
  have := huncaught (.whileLoop c body) handler s
    (execStmt cap (.whileLoop c body) s).1 .fatalLoopLimit
    "WHILE iteration limit exceeded" hsplit rfl
  rw [this]

/-- Claim C8, witness: with cap 3, a WHILE true loop aborts with the Fatal
loop-limit error and an enclosing TRY does not catch it. -/
theorem C8_while_guard_fatal_uncatchable_witness :
    (execStmt 3 (.whileLoop (.lit (.bool true)) (.set "n" (.lit (.int 1)))) []).2
      = .err .fatalLoopLimit "WHILE iteration limit exceeded" ∧
    (execStmt 3 (.tryOnError (.whileLoop (.lit (.bool true)) (.set "n" (.lit (.int 1))))
        .skip) []).2
      = .err .fatalLoopLimit "WHILE iteration limit exceeded" ∧
    ∀ (b h2 : Stmt) (sc sc2 : Scope) (k : ErrKind) (m : String),
      execStmt 3 b sc = (sc2, .err k m) → k.isFatal = true →
        execStmt 3 (.tryOnError b h2) sc = (sc2, .err k m) :=
  C8_while_guard_fatal_uncatchable 3 (.lit (.bool true)) (.set "n" (.lit (.int 1))) .skip []
    (fun _ => rfl) (fun _ => rfl)

end Anka
